import Mathlib

/-!
Shallow embedding of the topology-weaver visual editor core
(src/components/NetworkTopology.tsx and src/pages/Index.tsx).

Numeric values are modelled by rationals.  The one place where the source
can divide by zero (`handleDragEnd` divides pointer offsets by the measured
canvas dimensions) is modelled with an explicit JavaScript-number type
carrying infinities and NaN, with `jsDiv`, `Math.min` and `Math.max`
following IEEE/JS semantics for those values.
-/

/-- Data model from src/types/site.ts: `Coordinates`. -/
structure Coordinates where
  x : ℚ
  y : ℚ
deriving DecidableEq

/-- Data model from src/types/site.ts: `Connection` (type, bandwidth, optional provider). -/
structure Connection where
  type : String
  bandwidth : String
  provider : Option String := none
deriving DecidableEq

/-- Data model from src/types/site.ts: `SiteCategory = "Corporate" | "Data Center" | "Branch"`. -/
inductive SiteCategory where
  | corporate
  | dataCenter
  | branch
deriving DecidableEq

/-- Data model from src/types/site.ts: `Site`. -/
structure Site where
  id : String
  name : String
  location : String
  category : SiteCategory
  connections : List Connection
  coordinates : Coordinates
deriving DecidableEq

/-- A pixel position on the canvas (finite values). -/
structure Point where
  x : ℚ
  y : ℚ
deriving DecidableEq

/-- JavaScript number, restricted to the values reachable in the modelled
code: a finite rational, the two infinities, or NaN. -/
inductive JSNum where
  | fin (q : ℚ)
  | posInf
  | negInf
  | nan
deriving DecidableEq

/-- JavaScript division.  Finite / 0 gives ±Infinity by sign and 0/0 gives
NaN, as in IEEE-754 / JS `x / y`. -/
def jsDiv : JSNum → JSNum → JSNum
  | .nan, _ => .nan
  | _, .nan => .nan
  | .fin a, .fin b =>
      if b = 0 then (if 0 < a then .posInf else if a < 0 then .negInf else .nan)
      else .fin (a / b)
  | .fin _, .posInf => .fin 0
  | .fin _, .negInf => .fin 0
  | .posInf, .fin b => if 0 ≤ b then .posInf else .negInf
  | .negInf, .fin b => if 0 ≤ b then .negInf else .posInf
  | .posInf, .posInf => .nan
  | .posInf, .negInf => .nan
  | .negInf, .posInf => .nan
  | .negInf, .negInf => .nan

/-- JavaScript `Math.min`: NaN-propagating minimum. -/
def jsMin : JSNum → JSNum → JSNum
  | .nan, _ => .nan
  | _, .nan => .nan
  | .negInf, _ => .negInf
  | _, .negInf => .negInf
  | .posInf, b => b
  | a, .posInf => a
  | .fin a, .fin b => .fin (min a b)

/-- JavaScript `Math.max`: NaN-propagating maximum. -/
def jsMax : JSNum → JSNum → JSNum
  | .nan, _ => .nan
  | _, .nan => .nan
  | .posInf, _ => .posInf
  | _, .posInf => .posInf
  | .negInf, b => b
  | a, .negInf => a
  | .fin a, .fin b => .fin (max a b)

/-- A coordinate pair as emitted to the external store (may be non-finite
when the source divides by a zero dimension). -/
structure JSCoords where
  x : JSNum
  y : JSNum
deriving DecidableEq

/-- NetworkTopology.tsx `handleDrag` (lines 103–115): while dragging, the
live position map records the pointer position relative to the canvas
bounding rectangle, with no clamping.  `canvasPresent` models the
`if (canvasRef.current)` guard; `prev` is the previous `sitePositions` map. -/
def handleDrag (canvasPresent : Bool) (rectLeft rectTop pointX pointY : ℚ)
    (siteId : String) (prev : String → Option Point) : String → Option Point :=
  if canvasPresent then
    fun s => if s = siteId then some ⟨pointX - rectLeft, pointY - rectTop⟩ else prev s
  else prev

/-- NetworkTopology.tsx `handleDragEnd` (lines 117–131): on release, the
pointer offset is divided by the canvas dimensions and clamped by
`Math.max(0, Math.min(1, ·))`, then emitted once as
`onUpdateSiteCoordinates(siteId, {x, y})`.  Returns the emitted event, or
`none` when the canvas ref is absent (no emission). -/
def handleDragEnd (canvasPresent : Bool) (rectLeft rectTop pointX pointY : ℚ)
    (width height : ℚ) (siteId : String) : Option (String × JSCoords) :=
  if canvasPresent then
    let newX := pointX - rectLeft
    let newY := pointY - rectTop
    let relativeX := jsMax (.fin 0) (jsMin (.fin 1) (jsDiv (.fin newX) (.fin width)))
    let relativeY := jsMax (.fin 0) (jsMin (.fin 1) (jsDiv (.fin newY) (.fin height)))
    some (siteId, ⟨relativeX, relativeY⟩)
  else none

/-- NetworkTopology.tsx site render (lines 250–261): the rendered position
is the live `sitePositions` entry while this site is the one being dragged
(falling back to the derived position when the entry is missing), and the
derived position `(coordinates.x * width, coordinates.y * height)` otherwise. -/
def sitePixelPosition (isDragging : Option String) (sitePositions : String → Option Point)
    (site : Site) (width height : ℚ) : Point :=
  if isDragging = some site.id then
    match sitePositions site.id with
    | some p => p
    | none => ⟨site.coordinates.x * width, site.coordinates.y * height⟩
  else ⟨site.coordinates.x * width, site.coordinates.y * height⟩

/-- NetworkTopology.tsx position-tracking effect (lines 26–35): the
`sitePositions` map is rebuilt as
`(coordinates.x * (width || 1), coordinates.y * (height || 1))`;
JavaScript `||` replaces a zero dimension by 1. -/
def trackedPosition (site : Site) (width height : ℚ) : Point :=
  ⟨site.coordinates.x * (if width = 0 then 1 else width),
   site.coordinates.y * (if height = 0 then 1 else height)⟩

/-- NetworkTopology.tsx node scaling (lines 267–272):
`Math.max(0.6, 1 - sites.length / 60)`. -/
def scaleFactor (numSites : ℕ) : ℚ :=
  max 0.6 (1 - (numSites : ℚ) / 60)

/-- NetworkTopology.tsx `getDistanceFactors` (lines 134–141):
`Math.max(0.3, 1 - sites.length / 50)`, then hub distances
`height * 0.25 * siteFactor`. -/
def siteFactor (numSites : ℕ) : ℚ :=
  max 0.3 (1 - (numSites : ℚ) / 50)

/-- A point with real coordinates, for the curved-path geometry. -/
structure RPoint where
  x : ℝ
  y : ℝ

/-- JavaScript `Math.atan2(y, x)`, the argument of the complex number
x + iy. -/
noncomputable def atan2 (y x : ℝ) : ℝ :=
  Complex.arg ⟨x, y⟩

/-- An SVG quadratic Bézier path `M moveTo Q control, endP`. -/
structure QuadPath where
  moveTo : RPoint
  control : RPoint
  endP : RPoint

/-- NetworkTopology.tsx connection render (line 223):
`offsetAngle = (idx - (site.connections.length - 1) / 2) * 0.15`. -/
def offsetAngle (idx total : ℕ) : ℚ :=
  ((idx : ℚ) - ((total : ℚ) - 1) / 2) * 0.15

/-- NetworkTopology.tsx connection render (line 224):
`controlPointOffset = 30 + idx * 10`. -/
def controlPointOffset (idx : ℕ) : ℚ :=
  30 + (idx : ℚ) * 10

/-- NetworkTopology.tsx connection render (lines 213–236): the target is
the MPLS hub anchor `(width/2, height*(2/3))` for MPLS connections and the
Internet hub anchor `(width/2, height/3)` otherwise; the control point sits
at the segment midpoint displaced by `controlPointOffset` along the
direction `normalAngle + offsetAngle`, where `normalAngle` is the
perpendicular of the source→target direction. -/
noncomputable def connectionPath (sitePos : RPoint) (idx total : ℕ)
    (connType : String) (width height : ℝ) : QuadPath :=
  let targetX : ℝ := width / 2
  let targetY : ℝ := if connType = "MPLS" then height * (2 / 3) else height / 3
  let midX := (sitePos.x + targetX) / 2
  let midY := (sitePos.y + targetY) / 2
  let dx := targetX - sitePos.x
  let dy := targetY - sitePos.y
  let normalAngle := atan2 dy dx + Real.pi / 2
  { moveTo := sitePos,
    control :=
      ⟨midX + Real.cos (normalAngle + ((offsetAngle idx total : ℚ) : ℝ)) *
          ((controlPointOffset idx : ℚ) : ℝ),
       midY + Real.sin (normalAngle + ((offsetAngle idx total : ℚ) : ℝ)) *
          ((controlPointOffset idx : ℚ) : ℝ)⟩,
    endP := ⟨targetX, targetY⟩ }

/-- Index.tsx `updateSiteCoordinates` (lines 79–85): replace the
coordinates of every site whose id matches, leave the rest untouched. -/
def updateSiteCoordinates (sites : List Site) (siteId : String)
    (coordinates : Coordinates) : List Site :=
  sites.map fun site =>
    if site.id = siteId then { site with coordinates := coordinates } else site

/-- Index.tsx `removeSite` (lines 87–92): drop every site with the given id. -/
def removeSite (sites : List Site) (id : String) : List Site :=
  sites.filter fun site => site.id ≠ id

/-- Index.tsx `getRandomCoordinates` (lines 94–99):
`{x: 0.2 + Math.random() * 0.6, y: 0.3 + Math.random() * 0.5}`; the two
`Math.random()` draws are passed in as `r1`, `r2` (each in [0, 1)). -/
def getRandomCoordinates (r1 r2 : ℚ) : Coordinates :=
  ⟨0.2 + r1 * 0.6, 0.3 + r2 * 0.5⟩

/-- Index.tsx `addSite` (lines 71–73): append the new site with
`id = String(sites.length + 1)` and fresh random coordinates. -/
def addSite (sites : List Site) (site : Site) (r1 r2 : ℚ) : List Site :=
  sites ++ [{ site with
              id := Nat.repr (sites.length + 1),
              coordinates := getRandomCoordinates r1 r2 }]

/-- The initial site list of Index.tsx (lines 10–53), used as concrete
test data. -/
def demoSites : List Site :=
  [{ id := "1", name := "Headquarters", location := "New York",
     category := .corporate,
     connections := [{ type := "DIA", bandwidth := "1 Gbps" }],
     coordinates := ⟨0.5, 0.3⟩ },
   { id := "2", name := "Regional Office", location := "San Francisco",
     category := .corporate,
     connections := [{ type := "MPLS", bandwidth := "500 Mbps" }],
     coordinates := ⟨0.2, 0.6⟩ },
   { id := "3", name := "Data Center", location := "Chicago",
     category := .dataCenter,
     connections := [{ type := "Direct Connect", bandwidth := "10 Gbps" },
                     { type := "MPLS", bandwidth := "1 Gbps" }],
     coordinates := ⟨0.8, 0.5⟩ },
   { id := "4", name := "Branch Office", location := "Miami",
     category := .branch,
     connections := [{ type := "Broadband", bandwidth := "100 Mbps" },
                     { type := "LTE", bandwidth := "50 Mbps" }],
     coordinates := ⟨0.6, 0.7⟩ }]

/-- The first demo site, used as a concrete witness input. -/
def demoSite : Site :=
  { id := "1", name := "Headquarters", location := "New York",
    category := .corporate,
    connections := [{ type := "DIA", bandwidth := "1 Gbps" }],
    coordinates := ⟨0.5, 0.3⟩ }

/-- C1 (counterexample): a drag released 10px left of and above the canvas
on an 800×600 canvas emits coordinates (0, 0); the value 0 is below the
claimed safety-margin floor 0.05, so the emitted values do not lie within
[0.05, 0.95]. -/
theorem dragEnd_margin_counterexample :
    handleDragEnd true 0 0 (-10) (-10) 800 600 "A"
      = some ("A", ⟨JSNum.fin 0, JSNum.fin 0⟩) ∧
    ¬ ((1 / 20 : ℚ) ≤ 0) := by
  constructor
  · simp only [handleDragEnd, jsDiv, jsMin, jsMax, if_true]
    norm_num [min_def, max_def]
  · norm_num

/-- C1 (amended): for every completed drag gesture on a site node with a
positively-sized canvas, exactly one coordinate-update event is emitted for
that site, and both emitted values are finite and lie within [0, 1] (the
code clamps with `Math.max(0, Math.min(1, ·))`, not to a [0.05, 0.95]
margin), even when the pointer-release position is outside the canvas. -/
theorem dragEnd_commit_clamped_unit (rectLeft rectTop pointX pointY w h : ℚ)
    (siteId : String) (hw : 0 < w) (hh : 0 < h) :
    ∃ qx qy : ℚ,
      handleDragEnd true rectLeft rectTop pointX pointY w h siteId
        = some (siteId, ⟨JSNum.fin qx, JSNum.fin qy⟩) ∧
      0 ≤ qx ∧ qx ≤ 1 ∧ 0 ≤ qy ∧ qy ≤ 1 := by
  refine ⟨max 0 (min 1 ((pointX - rectLeft) / w)),
          max 0 (min 1 ((pointY - rectTop) / h)), ?_, ?_, ?_, ?_, ?_⟩
  · simp only [handleDragEnd, jsDiv, if_true]
    rw [if_neg hw.ne', if_neg hh.ne']
    simp [jsMin, jsMax]
  · exact le_max_left _ _
  · exact max_le (by norm_num) (min_le_left _ _)
  · exact le_max_left _ _
  · exact max_le (by norm_num) (min_le_left _ _)

/-- C1 (witness): the amended clamp theorem applied to a concrete release
far outside an 800×600 canvas. -/
theorem dragEnd_commit_clamped_unit_witness :
    ∃ qx qy : ℚ,
      handleDragEnd true 0 0 (-500) 9000 800 600 "A"
        = some ("A", ⟨JSNum.fin qx, JSNum.fin qy⟩) ∧
      0 ≤ qx ∧ qx ≤ 1 ∧ 0 ≤ qy ∧ qy ≤ 1 :=
  dragEnd_commit_clamped_unit 0 0 (-500) 9000 800 600 "A"
    (by norm_num) (by norm_num)

/-- C5 (counterexample): while dragging, a pointer-move to 10px left of and
above the canvas records the live position (-10, -10), which lies outside
the canvas bounds (its x is below 0): the live position is not clamped. -/
theorem handleDrag_unclamped_counterexample :
    (handleDrag true 0 0 (-10) (-10) "A" (fun _ => none)) "A"
      = some ⟨-10, -10⟩ ∧
    ¬ ((0 : ℚ) ≤ -10) := by
  constructor
  · simp [handleDrag]
  · norm_num

/-- C5 (amended): during a drag gesture, every pointer-move records the raw
pointer position relative to the canvas top-left corner for the dragged
site — with no clamping, so a pointer outside the canvas is recorded
outside the canvas — and leaves every other site's live entry unchanged;
clamping happens only on release, to [0, 1] in normalized coordinates. -/
theorem handleDrag_records_raw (rectLeft rectTop pointX pointY : ℚ)
    (siteId : String) (prev : String → Option Point) :
    (handleDrag true rectLeft rectTop pointX pointY siteId prev) siteId
      = some ⟨pointX - rectLeft, pointY - rectTop⟩ ∧
    ∀ s, s ≠ siteId →
      (handleDrag true rectLeft rectTop pointX pointY siteId prev) s = prev s := by
  constructor
  · simp [handleDrag]
  · intro s hs
    simp [handleDrag, hs]

/-- C5 (witness): the raw-recording theorem at a concrete pointer-move. -/
theorem handleDrag_records_raw_witness :
    (handleDrag true 0 0 40 60 "A" (fun _ => none)) "A" = some ⟨40 - 0, 60 - 0⟩ ∧
    (handleDrag true 0 0 40 60 "A" (fun _ => none)) "B" = none :=
  ⟨(handleDrag_records_raw 0 0 40 60 "A" (fun _ => none)).1,
   (handleDrag_records_raw 0 0 40 60 "A" (fun _ => none)).2 "B" (by decide)⟩

/-- C6 (code bug): with zero canvas dimensions, a drag released exactly at
the canvas top-left corner divides 0 by 0, and the resulting NaN survives
the `Math.max(0, Math.min(1, ·))` clamp, so the event emitted to the
external store carries NaN — a non-finite coordinate — on both axes. -/
theorem dragEnd_zero_dims_emits_nan :
    handleDragEnd true 0 0 0 0 0 0 "1" = some ("1", ⟨JSNum.nan, JSNum.nan⟩) ∧
    ∀ q : ℚ, JSNum.nan ≠ JSNum.fin q := by
  constructor
  · simp only [handleDragEnd, jsDiv, jsMin, jsMax, if_true]
    norm_num
  · intro q h
    exact JSNum.noConfusion h

/-- C7: while a site is the one currently being dragged and has an entry in
the live position map, its rendered pixel position equals exactly that
entry's value, regardless of the site's stored normalized coordinates. -/
theorem sitePixelPosition_drag_override (site : Site)
    (sitePositions : String → Option Point) (w h : ℚ) (p : Point)
    (hp : sitePositions site.id = some p) :
    sitePixelPosition (some site.id) sitePositions site w h = p := by
  unfold sitePixelPosition
  rw [if_pos rfl, hp]

/-- C7 (witness): the override theorem at a live entry (123, 45) for the
demo site, whose stored coordinates would instead render at (400, 180). -/
theorem sitePixelPosition_drag_override_witness :
    sitePixelPosition (some "1")
      (fun s => if s = "1" then some ⟨123, 45⟩ else none) demoSite 800 600
      = ⟨123, 45⟩ :=
  sitePixelPosition_drag_override demoSite
    (fun s => if s = "1" then some ⟨123, 45⟩ else none) 800 600 ⟨123, 45⟩
    (by simp [demoSite])

/-- C8: the node visual scale factor `Math.max(0.6, 1 - n/60)` is
monotonically non-increasing in the number of sites and never drops below
3/5 = 60% of the nominal node size. -/
theorem scaleFactor_monotone_bounded (n m : ℕ) (h : n ≤ m) :
    3 / 5 ≤ scaleFactor m ∧ scaleFactor m ≤ scaleFactor n := by
  constructor
  · simp only [scaleFactor]
    exact le_trans (by norm_num) (le_max_left _ _)
  · simp only [scaleFactor]
    refine max_le_max le_rfl ?_
    have hc : (n : ℚ) ≤ (m : ℚ) := by exact_mod_cast h
    linarith

/-- C8 (witness): the scale-factor theorem at site counts 3 ≤ 5. -/
theorem scaleFactor_monotone_bounded_witness :
    3 / 5 ≤ scaleFactor 5 ∧ scaleFactor 5 ≤ scaleFactor 3 :=
  scaleFactor_monotone_bounded 3 5 (by norm_num)

/-- C2: for every site with normalized coordinates in [0,1]×[0,1] and
positive canvas dimensions, when the site is not the one being dragged the
rendered pixel position — and the tracked `sitePositions` entry — equal
exactly `(x·w, y·h)`. -/
theorem sitePixelPosition_no_override (site : Site) (isDragging : Option String)
    (sitePositions : String → Option Point) (w h : ℚ)
    (hx0 : 0 ≤ site.coordinates.x) (hx1 : site.coordinates.x ≤ 1)
    (hy0 : 0 ≤ site.coordinates.y) (hy1 : site.coordinates.y ≤ 1)
    (hw : 0 < w) (hh : 0 < h)
    (hnd : isDragging ≠ some site.id) :
    sitePixelPosition isDragging sitePositions site w h
      = ⟨site.coordinates.x * w, site.coordinates.y * h⟩ ∧
    trackedPosition site w h
      = ⟨site.coordinates.x * w, site.coordinates.y * h⟩ := by
  constructor
  · unfold sitePixelPosition
    rw [if_neg hnd]
  · unfold trackedPosition
    rw [if_neg hw.ne', if_neg hh.ne']

/-- C2 (witness): the derivation theorem at the demo site (0.5, 0.3) on an
800×600 canvas with no drag in progress. -/
theorem sitePixelPosition_no_override_witness :
    sitePixelPosition none (fun _ => none) demoSite 800 600
      = ⟨demoSite.coordinates.x * 800, demoSite.coordinates.y * 600⟩ ∧
    trackedPosition demoSite 800 600
      = ⟨demoSite.coordinates.x * 800, demoSite.coordinates.y * 600⟩ :=
  sitePixelPosition_no_override demoSite none (fun _ => none) 800 600
    (by norm_num [demoSite]) (by norm_num [demoSite])
    (by norm_num [demoSite]) (by norm_num [demoSite])
    (by norm_num) (by norm_num) (by simp)

/-- C3: every connection path ends at the hub anchor: x is always width/2,
and y is height·(2/3) (the MPLS hub) when the connection type is "MPLS"
and height/3 (the Internet hub) for every other type. -/
theorem connectionPath_hub_routing (sitePos : RPoint) (idx total : ℕ)
    (connType : String) (w h : ℝ) :
    (connectionPath sitePos idx total connType w h).endP.x = w / 2 ∧
    (connType = "MPLS" →
      (connectionPath sitePos idx total connType w h).endP.y = h * (2 / 3)) ∧
    (connType ≠ "MPLS" →
      (connectionPath sitePos idx total connType w h).endP.y = h / 3) := by
  refine ⟨rfl, ?_, ?_⟩
  · intro hc
    simp [connectionPath, hc]
  · intro hc
    simp [connectionPath, hc]

/-- C3 (witness): the spec scenario on an 800×600 canvas — the MPLS path
ends at (400, 400) and the DIA path at (400, 200). -/
theorem connectionPath_hub_routing_witness :
    (connectionPath ⟨400, 300⟩ 0 2 "MPLS" 800 600).endP.x = 400 ∧
    (connectionPath ⟨400, 300⟩ 0 2 "MPLS" 800 600).endP.y = 400 ∧
    (connectionPath ⟨400, 300⟩ 1 2 "DIA" 800 600).endP.y = 200 := by
  refine ⟨?_, ?_, ?_⟩
  · rw [(connectionPath_hub_routing ⟨400, 300⟩ 0 2 "MPLS" 800 600).1]
    norm_num
  · rw [(connectionPath_hub_routing ⟨400, 300⟩ 0 2 "MPLS" 800 600).2.1 rfl]
    norm_num
  · rw [(connectionPath_hub_routing ⟨400, 300⟩ 1 2 "DIA" 800 600).2.2 (by decide)]
    norm_num

/-- C4: for a site with 3 connections the angular offsets at indices 0, 1,
2 are (−1)·0.15, 0·0.15, (+1)·0.15 — symmetric around 0 and proportional to
−1, 0, +1 — the displacement magnitudes are 30, 40, 50 = 30 + idx·10, and
every control point sits at the segment midpoint displaced by
`controlPointOffset idx` along direction
`atan2(dy, dx) + π/2 + offsetAngle idx 3`. -/
theorem connectionPath_fanout_symmetry (sitePos : RPoint) (connType : String)
    (w h : ℝ) :
    offsetAngle 0 3 = -1 * 0.15 ∧ offsetAngle 1 3 = 0 * 0.15 ∧
    offsetAngle 2 3 = 1 * 0.15 ∧ offsetAngle 0 3 = -(offsetAngle 2 3) ∧
    controlPointOffset 0 = 30 ∧ controlPointOffset 1 = 40 ∧
    controlPointOffset 2 = 50 ∧
    ∀ idx : ℕ,
      (connectionPath sitePos idx 3 connType w h).control.x
        = (sitePos.x + (connectionPath sitePos idx 3 connType w h).endP.x) / 2
          + Real.cos
              (atan2 ((connectionPath sitePos idx 3 connType w h).endP.y - sitePos.y)
                     ((connectionPath sitePos idx 3 connType w h).endP.x - sitePos.x)
               + Real.pi / 2 + ((offsetAngle idx 3 : ℚ) : ℝ))
            * ((controlPointOffset idx : ℚ) : ℝ) ∧
      (connectionPath sitePos idx 3 connType w h).control.y
        = (sitePos.y + (connectionPath sitePos idx 3 connType w h).endP.y) / 2
          + Real.sin
              (atan2 ((connectionPath sitePos idx 3 connType w h).endP.y - sitePos.y)
                     ((connectionPath sitePos idx 3 connType w h).endP.x - sitePos.x)
               + Real.pi / 2 + ((offsetAngle idx 3 : ℚ) : ℝ))
            * ((controlPointOffset idx : ℚ) : ℝ) := by
  refine ⟨by norm_num [offsetAngle], by norm_num [offsetAngle],
          by norm_num [offsetAngle], by norm_num [offsetAngle],
          by norm_num [controlPointOffset], by norm_num [controlPointOffset],
          by norm_num [controlPointOffset], ?_⟩
  intro idx
  exact ⟨rfl, rfl⟩

/-- C9: `updateSiteCoordinates` preserves list length and order, rewrites
exactly the coordinates field of every site whose id matches (name,
location, category, connections, id unchanged), leaves every other site
untouched, and leaves the whole list unchanged when no id matches. -/
theorem updateSiteCoordinates_frame (sites : List Site) (siteId : String)
    (c : Coordinates) :
    (updateSiteCoordinates sites siteId c).length = sites.length ∧
    (∀ i : ℕ, (updateSiteCoordinates sites siteId c)[i]?
        = (sites[i]?).map fun s =>
            if s.id = siteId then { s with coordinates := c } else s) ∧
    (∀ s : Site, ({ s with coordinates := c }).name = s.name
        ∧ ({ s with coordinates := c }).location = s.location
        ∧ ({ s with coordinates := c }).category = s.category
        ∧ ({ s with coordinates := c }).connections = s.connections
        ∧ ({ s with coordinates := c }).id = s.id
        ∧ ({ s with coordinates := c }).coordinates = c) ∧
    (∀ i : ℕ, ∀ s : Site, sites[i]? = some s → s.id ≠ siteId →
        (updateSiteCoordinates sites siteId c)[i]? = some s) ∧
    ((∀ s ∈ sites, s.id ≠ siteId) → updateSiteCoordinates sites siteId c = sites) := by
  refine ⟨by simp [updateSiteCoordinates], ?_, ?_, ?_, ?_⟩
  · intro i
    simp [updateSiteCoordinates, List.getElem?_map]
  · intro s
    exact ⟨rfl, rfl, rfl, rfl, rfl, rfl⟩
  · intro i s hs hne
    simp [updateSiteCoordinates, List.getElem?_map, hs, hne]
  · intro hall
    unfold updateSiteCoordinates
    rw [List.map_congr_left fun s hs => if_neg (hall s hs)]
    simp

/-- C9 (witness): updating an id absent from the demo list leaves the list
unchanged. -/
theorem updateSiteCoordinates_frame_witness :
    updateSiteCoordinates demoSites "99" ⟨0.4, 0.4⟩ = demoSites :=
  (updateSiteCoordinates_frame demoSites "99" ⟨0.4, 0.4⟩).2.2.2.2 (by decide)

/-- C10: `addSite` appends exactly one record, with id the decimal string
of length+1 and random coordinates satisfying 0.2 ≤ x ≤ 0.8 and
0.3 ≤ y ≤ 0.8 (strictly inside (0,1)), leaving the existing sites
unchanged; and after removing site "2" from the demo list the next assigned
id "4" collides with an existing site's id. -/
theorem addSite_spec (sites : List Site) (site : Site) (r1 r2 : ℚ)
    (h1 : 0 ≤ r1) (h2 : r1 < 1) (h3 : 0 ≤ r2) (h4 : r2 < 1) :
    (addSite sites site r1 r2).length = sites.length + 1 ∧
    addSite sites site r1 r2
      = sites ++ [{ site with
                    id := Nat.repr (sites.length + 1),
                    coordinates := getRandomCoordinates r1 r2 }] ∧
    (0.2 ≤ (getRandomCoordinates r1 r2).x ∧ (getRandomCoordinates r1 r2).x ≤ 0.8) ∧
    (0.3 ≤ (getRandomCoordinates r1 r2).y ∧ (getRandomCoordinates r1 r2).y ≤ 0.8) ∧
    (0 < (getRandomCoordinates r1 r2).x ∧ (getRandomCoordinates r1 r2).x < 1) ∧
    (0 < (getRandomCoordinates r1 r2).y ∧ (getRandomCoordinates r1 r2).y < 1) ∧
    (∃ t ∈ removeSite demoSites "2",
        t.id = Nat.repr ((removeSite demoSites "2").length + 1)) := by
  have hx : (getRandomCoordinates r1 r2).x = 0.2 + r1 * 0.6 := rfl
  have hy : (getRandomCoordinates r1 r2).y = 0.3 + r2 * 0.5 := rfl
  refine ⟨by simp [addSite], rfl, ?_, ?_, ?_, ?_, ?_⟩
  · rw [hx]
    constructor
    · nlinarith
    · nlinarith
  · rw [hy]
    constructor
    · nlinarith
    · nlinarith
  · rw [hx]
    constructor
    · nlinarith
    · nlinarith
  · rw [hy]
    constructor
    · nlinarith
    · nlinarith
  · simp [removeSite, demoSites]
    decide

/-- C10 (witness): `addSite` on the empty list with both random draws fixed
to concrete values in [0, 1). -/
theorem addSite_spec_witness :
    (addSite [] demoSite 0 (1 / 2)).length = List.length ([] : List Site) + 1 ∧
    (0.2 ≤ (getRandomCoordinates 0 (1 / 2)).x
      ∧ (getRandomCoordinates 0 (1 / 2)).x ≤ 0.8) :=
  ⟨(addSite_spec [] demoSite 0 (1 / 2) (by norm_num) (by norm_num)
      (by norm_num) (by norm_num)).1,
   (addSite_spec [] demoSite 0 (1 / 2) (by norm_num) (by norm_num)
      (by norm_num) (by norm_num)).2.2.1⟩
